import Mathlib

/-!
Verification of the executor builder and state backend of `forge`
(`src/forge/src/executor/builder.rs`), as a shallow embedding in Lean 4.

The embedding keeps the source's names.  Machine integers (`U256`, `u64`,
addresses, hashes) are modelled as `Nat`; byte strings as `List Nat`.
External collaborators (revm's `EmptyDB`, `Env`, `AccountInfo`, the
`SharedBackend` fetch-through cache, the ethers `Provider`) are not part of
this repository's source; they are modelled from the specification's
boundary descriptions, each marked `Modelled from the spec:` in its doc
comment.  A Rust panic (`unwrap` on a failed conversion) is modelled by
`Option`: `none` is the fatal, unrecoverable abort.
-/

/-- A 256-bit word, modelled as `Nat`. -/
abbrev U256 := Nat

/-- A 160-bit account address (`H160`), modelled as `Nat`. -/
abbrev H160 := Nat

/-- A 256-bit hash (`H256`), modelled as `Nat`. -/
abbrev H256 := Nat

/-- A byte string (`bytes::Bytes`), modelled as a list of bytes. -/
abbrev Bytes := List Nat

/-- Modelled from the spec: the protocol/spec-version identifier (revm
`SpecId`), an opaque ruleset selector. -/
abbrev SpecId := Nat

/-- Modelled from the spec: the part of the execution environment holding
the protocol ruleset (revm `CfgEnv`): spec version and chain parameters. -/
structure CfgEnv where
  spec_id : SpecId
  chain_id : Nat
deriving Repr, DecidableEq

instance : Inhabited CfgEnv := ⟨{ spec_id := 0, chain_id := 0 }⟩

/-- Modelled from the spec: the execution environment record (revm `Env`):
gas limit, chain parameters, block context; opaque to this core and passed
through verbatim. -/
structure Env where
  cfg : CfgEnv
  gas_limit : Nat
  block_number : Nat
deriving Repr, DecidableEq

instance : Inhabited Env := ⟨{ cfg := default, gas_limit := 0, block_number := 0 }⟩

/-- Modelled from the spec: account metadata (revm `AccountInfo`):
balance, nonce, code hash, optional code. -/
structure AccountInfo where
  balance : U256
  nonce : Nat
  code_hash : H256
  code : Option Bytes
deriving Repr, DecidableEq

instance : Inhabited AccountInfo :=
  ⟨{ balance := 0, nonce := 0, code_hash := 0, code := none }⟩

/-- The fork descriptor (`Fork` in the source): endpoint URL of a remote
node and an optional block pin. -/
structure Fork where
  url : String
  pin_block : Option Nat
deriving Repr, DecidableEq

/-- Modelled from the spec: the remote chain node's state, i.e. the
responses the remote client and fetch collaborator would produce, each
keyed by the optional pinned block and the query arguments. -/
structure Remote where
  block_hash : Option U256 → U256 → H256
  basic : H160 → AccountInfo
  code_by_hash : H256 → Bytes
  storage : H160 → U256 → U256

/-- Modelled from the spec: the remote client handle (ethers `Provider`),
holding the endpoint and giving access to the remote chain state. -/
structure Provider where
  url : String
  remote : Remote

/-- Modelled from the spec: `Provider::try_from` fails with a fatal,
unrecoverable error given a malformed or unparsable endpoint address.
URL syntax validity is abstracted as the predicate `validUrl`; the live
chain behind the endpoint is the parameter `net`. -/
def Provider.tryFrom (validUrl : String → Bool) (net : Remote) (url : String) :
    Option Provider :=
  if validUrl url then some { url := url, remote := net } else none

/-- Modelled from the spec: the in-memory cache store (`SharedMemCache`),
constructed empty; its contents never change a query's value (point-in-time
consistency), so it carries no data in the model. -/
structure SharedMemCache where
deriving Repr, DecidableEq

instance : Inhabited SharedMemCache := ⟨{}⟩

/-- Modelled from the spec: the fetch-through cache collaborator
(`SharedBackend`), satisfying the four-operation read contract; every
answer is the cached-or-fetched remote value as of the pinned block. -/
structure SharedBackend where
  block_hash : U256 → H256
  basic : H160 → AccountInfo
  code_by_hash : H256 → Bytes
  storage : H160 → U256 → U256

/-- Modelled from the spec: the `SharedBackend` constructor accepts
(remote client handle, empty cache store, optional pinned block) and
serves the four queries from the remote source as of the pinned block. -/
def SharedBackend.new (provider : Provider) (_cache : SharedMemCache)
    (pin_block : Option U256) : SharedBackend :=
  { block_hash := provider.remote.block_hash pin_block
    basic := provider.remote.basic
    code_by_hash := provider.remote.code_by_hash
    storage := provider.remote.storage }

/-- The empty state store (revm `EmptyDB`), a unit marker.  Its query
behaviour is modelled from the spec: every query answers with an inert
default regardless of input. -/
structure EmptyDB where
deriving Repr, DecidableEq

/-- Modelled from the spec: `Local` returns a fixed/default hash. -/
def EmptyDB.block_hash (_ : EmptyDB) (_number : U256) : H256 := 0

/-- Modelled from the spec: `Local` returns a default/empty account record
(zero balance, zero nonce, no code). -/
def EmptyDB.basic (_ : EmptyDB) (_address : H160) : AccountInfo := default

/-- Modelled from the spec: `Local` returns empty bytes. -/
def EmptyDB.code_by_hash (_ : EmptyDB) (_address : H256) : Bytes := []

/-- Modelled from the spec: `Local` returns a default (zero) value. -/
def EmptyDB.storage (_ : EmptyDB) (_address : H160) (_index : U256) : U256 := 0

/-- The backend union (`Backend` in the source): `Simple` holds an
`EmptyDB`, `Forked` holds a `SharedBackend`. -/
inductive Backend where
  | Simple (inner : EmptyDB)
  | Forked (inner : SharedBackend)

/-- `Backend::new`: instantiates a new backend union based on whether there
was or not a fork url specified.  `Provider::try_from(..).unwrap()` panics
on a malformed URL, so the result is `Option Backend` with `none` the
panic. -/
def Backend.new (validUrl : String → Bool) (net : Remote) (fork : Option Fork) :
    Option Backend :=
  match fork with
  | some fork =>
    match Provider.tryFrom validUrl net fork.url with
    | none => none
    | some provider =>
      let backend := SharedBackend.new provider default
        (fork.pin_block.map (fun n => (n : U256)))
      some (Backend.Forked backend)
  | none => some (Backend.Simple {})

/-- `DatabaseRef::block_hash` for `Backend`: two-way match, forwarding to
the active variant's inner implementation. -/
def Backend.block_hash (b : Backend) (number : U256) : H256 :=
  match b with
  | Backend.Simple inner => inner.block_hash number
  | Backend.Forked inner => inner.block_hash number

/-- `DatabaseRef::basic` for `Backend`. -/
def Backend.basic (b : Backend) (address : H160) : AccountInfo :=
  match b with
  | Backend.Simple inner => inner.basic address
  | Backend.Forked inner => inner.basic address

/-- `DatabaseRef::code_by_hash` for `Backend`. -/
def Backend.code_by_hash (b : Backend) (address : H256) : Bytes :=
  match b with
  | Backend.Simple inner => inner.code_by_hash address
  | Backend.Forked inner => inner.code_by_hash address

/-- `DatabaseRef::storage` for `Backend`. -/
def Backend.storage (b : Backend) (address : H160) (index : U256) : U256 :=
  match b with
  | Backend.Simple inner => inner.storage address index
  | Backend.Forked inner => inner.storage address index

/-- The variant tag of a backend: `true` for `Forked`, `false` for
`Simple`. -/
def Backend.isForked : Backend → Bool
  | Backend.Simple _ => false
  | Backend.Forked _ => true

/-- One query against the backend, as issued by the execution engine. -/
inductive Query where
  | block_hash (number : U256)
  | basic (address : H160)
  | code_by_hash (address : H256)
  | storage (address : H160) (index : U256)

/-- One query answer. -/
inductive Answer where
  | hash (h : H256)
  | acct (a : AccountInfo)
  | bytes (b : Bytes)
  | word (u : U256)

/-- State-passing form of the `DatabaseRef` impl: every method takes
`&self`, so a call returns its answer together with the backend it leaves
behind, which is the very backend it received. -/
def Backend.queryStep (b : Backend) (q : Query) : Answer × Backend :=
  match q with
  | Query.block_hash number => (Answer.hash (b.block_hash number), b)
  | Query.basic address => (Answer.acct (b.basic address), b)
  | Query.code_by_hash address => (Answer.bytes (b.code_by_hash address), b)
  | Query.storage address index => (Answer.word (b.storage address index), b)

/-- Modelled from the spec: the execution engine value (`Executor<DB>`),
constructed from a backend and the accumulated execution environment; this
core only injects both. -/
structure Executor (DB : Type) where
  db : DB
  env : Env

/-- Modelled from the spec: the engine constructor accepts
(backend, execution environment record). -/
def Executor.new {DB : Type} (db : DB) (env : Env) : Executor DB :=
  { db := db, env := env }

/-- The builder (`ExecutorBuilder` in the source): accumulated
configuration. -/
structure ExecutorBuilder where
  cheatcodes : Bool
  ffi : Bool
  config : Env
  fork : Option Fork
deriving Repr, DecidableEq

/-- `ExecutorBuilder::new`. -/
def ExecutorBuilder.new : ExecutorBuilder :=
  { cheatcodes := false, ffi := false, config := default, fork := none }

/-- `#[derive(Default)]` on `ExecutorBuilder`: every field takes its
type's default (`false`, `false`, `Env::default()`, `None`). -/
instance : Inhabited ExecutorBuilder :=
  ⟨{ cheatcodes := false, ffi := false, config := default, fork := none }⟩

/-- `ExecutorBuilder::with_cheatcodes`: enables cheatcodes on the executor
and sets the FFI flag to its argument. -/
def ExecutorBuilder.with_cheatcodes (b : ExecutorBuilder) (ffi : Bool) :
    ExecutorBuilder :=
  { b with cheatcodes := true, ffi := ffi }

/-- `ExecutorBuilder::with_spec`: sets `config.cfg.spec_id`. -/
def ExecutorBuilder.with_spec (b : ExecutorBuilder) (spec : SpecId) :
    ExecutorBuilder :=
  { b with config := { b.config with cfg := { b.config.cfg with spec_id := spec } } }

/-- `ExecutorBuilder::with_config`: replaces the whole execution
environment. -/
def ExecutorBuilder.with_config (b : ExecutorBuilder) (config : Env) :
    ExecutorBuilder :=
  { b with config := config }

/-- `ExecutorBuilder::with_fork`: attaches a fork descriptor. -/
def ExecutorBuilder.with_fork (b : ExecutorBuilder) (fork : Fork) :
    ExecutorBuilder :=
  { b with fork := some fork }

/-- `ExecutorBuilder::build`: constructs the backend from the accumulated
fork descriptor and injects it, with the accumulated environment, into the
engine constructor.  `none` is the fatal abort inside `Backend::new`. -/
def ExecutorBuilder.build (validUrl : String → Bool) (net : Remote)
    (b : ExecutorBuilder) : Option (Executor Backend) :=
  (Backend.new validUrl net b.fork).map (fun db => Executor.new db b.config)

/-- The four builder configuration operations, reified so that sequences of
calls can be quantified over. -/
inductive Op where
  | cheat (ffi : Bool)
  | spec (s : SpecId)
  | conf (e : Env)
  | fork (f : Fork)
deriving Repr, DecidableEq

/-- Apply one reified builder operation. -/
def Op.apply (o : Op) (b : ExecutorBuilder) : ExecutorBuilder :=
  match o with
  | Op.cheat ffi => b.with_cheatcodes ffi
  | Op.spec s => b.with_spec s
  | Op.conf e => b.with_config e
  | Op.fork f => b.with_fork f

/-- Run a sequence of builder operations left to right. -/
def runOps (ops : List Op) (b : ExecutorBuilder) : ExecutorBuilder :=
  match ops with
  | [] => b
  | o :: rest => runOps rest (o.apply b)

/-- Which of the four builder fields an operation writes.  Read off the
source: `with_cheatcodes` writes `cheatcodes` and `ffi`; `with_spec` and
`with_config` write (into) `config`; `with_fork` writes `fork`. -/
def Op.fields : Op → List Nat
  | Op.cheat _ => [0, 1]
  | Op.spec _ => [2]
  | Op.conf _ => [2]
  | Op.fork _ => [3]

/-- Two operations are independent when they write disjoint fields. -/
def Op.indep (o₁ o₂ : Op) : Prop :=
  ∀ n, n ∈ o₁.fields → n ∉ o₂.fields

instance (o₁ o₂ : Op) : Decidable (o₁.indep o₂) := by
  unfold Op.indep; infer_instance

/-- A sample remote chain used to instantiate witnesses. -/
def demoRemote : Remote :=
  { block_hash := fun _ _ => 7
    basic := fun _ => default
    code_by_hash := fun _ => []
    storage := fun _ _ => 0 }

/-- A sample URL-syntax validator used to instantiate witnesses: accepts
everything except the literal malformed endpoint of the spec's scenario. -/
def demoValidUrl : String → Bool := fun s => s != "not-a-url"

/-! ## Theorems -/

/-- C1: Backend variant selection is total and exclusive.  Constructing
with no fork descriptor always yields the `Simple` (Local) variant;
constructing with a fork descriptor whose endpoint the remote-client
constructor accepts yields the `Forked` variant; and whenever construction
yields a backend at all, that backend is `Forked` exactly when a fork
descriptor was present and `Simple` exactly when it was absent — no other
backend value is reachable. -/
theorem backend_variant_selection (validUrl : String → Bool) (net : Remote)
    (fork : Option Fork) :
    (fork = none → Backend.new validUrl net fork = some (Backend.Simple {})) ∧
    (∀ f, fork = some f → validUrl f.url = true →
      ∃ sb, Backend.new validUrl net fork = some (Backend.Forked sb)) ∧
    (∀ b, Backend.new validUrl net fork = some b →
      ((∃ sb, b = Backend.Forked sb) ↔ fork.isSome = true) ∧
      ((∃ e, b = Backend.Simple e) ↔ fork = none)) := by
  refine ⟨?_, ?_, ?_⟩
  · rintro rfl; rfl
  · rintro f rfl hvalid
    simp [Backend.new, Provider.tryFrom, hvalid]
  · rintro b hb
    cases fork with
    | none =>
      simp [Backend.new] at hb
      subst hb
      constructor
      · simp
      · exact ⟨fun _ => rfl, fun _ => ⟨{}, rfl⟩⟩
    | some f =>
      simp only [Backend.new, Provider.tryFrom] at hb
      by_cases hvalid : validUrl f.url = true
      · simp [hvalid] at hb
        subst hb
        constructor
        · simp
        · simp
      · simp [hvalid] at hb

/-- C1 witness: at concrete inputs, the no-fork case yields `Simple`, a
valid-endpoint fork yields `Forked`, and exclusivity holds for the
resulting backend. -/
theorem backend_variant_selection_witness :
    Backend.new demoValidUrl demoRemote none = some (Backend.Simple {}) ∧
    (∃ sb, Backend.new demoValidUrl demoRemote
        (some { url := "http://localhost:8545", pin_block := some 100 }) =
      some (Backend.Forked sb)) ∧
    ((∃ e, Backend.Simple {} = Backend.Simple e) ↔ (none : Option Fork) = none) := by
  refine ⟨?_, ?_, ?_⟩
  · exact (backend_variant_selection demoValidUrl demoRemote none).1 rfl
  · exact (backend_variant_selection demoValidUrl demoRemote
      (some { url := "http://localhost:8545", pin_block := some 100 })).2.1
      { url := "http://localhost:8545", pin_block := some 100 } rfl (by decide)
  · exact ((backend_variant_selection demoValidUrl demoRemote none).2.2
      (Backend.Simple {}) rfl).2

/-- C2: for each of the four query operations, the `Backend` result on any
input equals the result of the active variant's inner implementation
(`EmptyDB` for `Simple`, `SharedBackend` for `Forked`) applied to the same
input, with no transformation of inputs or outputs at the dispatch
layer. -/
theorem backend_dispatch_forwards_verbatim :
    (∀ (e : EmptyDB) (n : U256),
      Backend.block_hash (Backend.Simple e) n = e.block_hash n) ∧
    (∀ (sb : SharedBackend) (n : U256),
      Backend.block_hash (Backend.Forked sb) n = sb.block_hash n) ∧
    (∀ (e : EmptyDB) (a : H160),
      Backend.basic (Backend.Simple e) a = e.basic a) ∧
    (∀ (sb : SharedBackend) (a : H160),
      Backend.basic (Backend.Forked sb) a = sb.basic a) ∧
    (∀ (e : EmptyDB) (h : H256),
      Backend.code_by_hash (Backend.Simple e) h = e.code_by_hash h) ∧
    (∀ (sb : SharedBackend) (h : H256),
      Backend.code_by_hash (Backend.Forked sb) h = sb.code_by_hash h) ∧
    (∀ (e : EmptyDB) (a : H160) (i : U256),
      Backend.storage (Backend.Simple e) a i = e.storage a i) ∧
    (∀ (sb : SharedBackend) (a : H160) (i : U256),
      Backend.storage (Backend.Forked sb) a i = sb.storage a i) := by
  refine ⟨?_, ?_, ?_, ?_, ?_, ?_, ?_, ?_⟩ <;> intros <;> rfl

/-- C3: a `Simple` (Local) backend answers every query with the same fixed
default, independent of the argument: `basic` returns the zero-balance,
zero-nonce, codeless record, `code_by_hash` returns empty bytes, `storage`
returns zero, and `block_hash` returns the fixed default hash.  The
functions are pure, so repeated calls are identical by construction. -/
theorem local_backend_fixed_defaults :
    (∀ (a : H160), Backend.basic (Backend.Simple {}) a =
      { balance := 0, nonce := 0, code_hash := 0, code := none }) ∧
    (∀ (h : H256), Backend.code_by_hash (Backend.Simple {}) h = []) ∧
    (∀ (a : H160) (i : U256), Backend.storage (Backend.Simple {}) a i = 0) ∧
    (∀ (n : U256), Backend.block_hash (Backend.Simple {}) n = 0) ∧
    (∀ (a a' : H160), Backend.basic (Backend.Simple {}) a =
      Backend.basic (Backend.Simple {}) a') ∧
    (∀ (h h' : H256), Backend.code_by_hash (Backend.Simple {}) h =
      Backend.code_by_hash (Backend.Simple {}) h') ∧
    (∀ (a a' : H160) (i i' : U256), Backend.storage (Backend.Simple {}) a i =
      Backend.storage (Backend.Simple {}) a' i') ∧
    (∀ (n n' : U256), Backend.block_hash (Backend.Simple {}) n =
      Backend.block_hash (Backend.Simple {}) n') := by
  refine ⟨?_, ?_, ?_, ?_, ?_, ?_, ?_, ?_⟩ <;> intros <;> rfl

/-- C4: building a configuration whose fork descriptor has a malformed
endpoint URL (one the remote-client constructor rejects) fails fatally
inside `build` before any execution engine is produced: the result is the
fatal abort (`none` in the model), never a `Local` fallback and never a
recoverable executor value. -/
theorem build_malformed_url_fails_fatally (validUrl : String → Bool)
    (net : Remote) (b : ExecutorBuilder) (f : Fork)
    (hfork : b.fork = some f) (hbad : validUrl f.url = false) :
    ExecutorBuilder.build validUrl net b = none := by
  simp [ExecutorBuilder.build, Backend.new, hfork, Provider.tryFrom, hbad]

/-- C4 witness: the spec's scenario — a fork descriptor with endpoint
`not-a-url` and no pinned block — aborts the build at a concrete input. -/
theorem build_malformed_url_fails_fatally_witness :
    ExecutorBuilder.build demoValidUrl demoRemote
      { cheatcodes := false, ffi := false, config := default,
        fork := some { url := "not-a-url", pin_block := none } } = none := by
  exact build_malformed_url_fails_fatally demoValidUrl demoRemote
    { cheatcodes := false, ffi := false, config := default,
      fork := some { url := "not-a-url", pin_block := none } }
    { url := "not-a-url", pin_block := none } rfl (by decide)

/-- C5 counterexample: `with_cheatcodes` does not mutate exactly one field.
At the concrete input `ExecutorBuilder::new().with_cheatcodes(true)`, both
the `cheatcodes` field and the `ffi` field change, so the claim that every
builder operation mutates exactly one field is false. -/
theorem with_cheatcodes_mutates_two_fields :
    ¬ ((ExecutorBuilder.new.with_cheatcodes true).cheatcodes =
        ExecutorBuilder.new.cheatcodes ∨
      (ExecutorBuilder.new.with_cheatcodes true).ffi =
        ExecutorBuilder.new.ffi) := by
  decide

/-- C5 amended: each builder operation returns the builder itself with only
its own fields written: `with_spec`, `with_config` and `with_fork` each
mutate exactly one field (`config`, `config`, `fork` respectively) leaving
all other fields unchanged — `with_spec` moreover rewrites only the
`cfg.spec_id` subfield of `config` — while `with_cheatcodes` mutates
exactly the two fields `cheatcodes` (set to `true`) and `ffi` (set to its
argument), leaving `config` and `fork` unchanged. -/
theorem builder_ops_frame_conditions (b : ExecutorBuilder) (ffi : Bool)
    (spec : SpecId) (config : Env) (fork : Fork) :
    (b.with_cheatcodes ffi).cheatcodes = true ∧
    (b.with_cheatcodes ffi).ffi = ffi ∧
    (b.with_cheatcodes ffi).config = b.config ∧
    (b.with_cheatcodes ffi).fork = b.fork ∧
    (b.with_spec spec).cheatcodes = b.cheatcodes ∧
    (b.with_spec spec).ffi = b.ffi ∧
    (b.with_spec spec).config =
      { b.config with cfg := { b.config.cfg with spec_id := spec } } ∧
    (b.with_spec spec).fork = b.fork ∧
    (b.with_config config).cheatcodes = b.cheatcodes ∧
    (b.with_config config).ffi = b.ffi ∧
    (b.with_config config).config = config ∧
    (b.with_config config).fork = b.fork ∧
    (b.with_fork fork).cheatcodes = b.cheatcodes ∧
    (b.with_fork fork).ffi = b.ffi ∧
    (b.with_fork fork).config = b.config ∧
    (b.with_fork fork).fork = some fork := by
  repeat' constructor

/-- C6: builder configuration is order-independent for independent
operations: any two builder operations that write disjoint sets of builder
fields produce the same final configuration in either application order. -/
theorem builder_ops_commute (o₁ o₂ : Op) (b : ExecutorBuilder)
    (h : o₁.indep o₂) :
    o₂.apply (o₁.apply b) = o₁.apply (o₂.apply b) := by
  cases o₁ <;> cases o₂ <;>
    first
      | rfl
      | (exfalso
         apply h 0 <;> (simp [Op.fields]; done))
      | (exfalso
         apply h 2 <;> (simp [Op.fields]; done))
      | (exfalso
         apply h 3 <;> (simp [Op.fields]; done))

/-- C6 witness: enabling cheatcodes and attaching a fork descriptor are
independent and commute at a concrete builder. -/
theorem builder_ops_commute_witness :
    Op.indep (Op.cheat true) (Op.fork { url := "http://localhost:8545", pin_block := none }) ∧
    (Op.fork { url := "http://localhost:8545", pin_block := none }).apply
        ((Op.cheat true).apply ExecutorBuilder.new) =
      (Op.cheat true).apply
        ((Op.fork { url := "http://localhost:8545", pin_block := none }).apply
          ExecutorBuilder.new) :=
  ⟨by decide,
    builder_ops_commute (Op.cheat true)
      (Op.fork { url := "http://localhost:8545", pin_block := none })
      ExecutorBuilder.new (by decide)⟩

/-- C7: the freshly constructed builder has cheatcodes disabled, FFI
disabled, the default execution environment and no fork descriptor; the
derived `Default` agrees with `new`; and building it without further
configuration yields the `Simple` (Local) backend paired with the default
environment. -/
theorem builder_new_defaults (validUrl : String → Bool) (net : Remote) :
    ExecutorBuilder.new.cheatcodes = false ∧
    ExecutorBuilder.new.ffi = false ∧
    ExecutorBuilder.new.config = default ∧
    ExecutorBuilder.new.fork = none ∧
    ExecutorBuilder.new = default ∧
    ExecutorBuilder.build validUrl net ExecutorBuilder.new =
      some { db := Backend.Simple {}, env := default } := by
  repeat' constructor

/-- Helper invariant: every builder reachable by operations from a builder
satisfying `ffi → cheatcodes` still satisfies `ffi → cheatcodes`, because
`with_cheatcodes` — the only operation writing `ffi` — always sets
`cheatcodes` to `true`. -/
theorem runOps_ffi_imp_cheatcodes (ops : List Op) (b : ExecutorBuilder)
    (hb : b.ffi = true → b.cheatcodes = true) :
    (runOps ops b).ffi = true → (runOps ops b).cheatcodes = true := by
  induction ops generalizing b with
  | nil => exact hb
  | cons o rest ih =>
    refine ih (o.apply b) ?_
    cases o with
    | cheat ffi => intro _; rfl
    | spec s => exact hb
    | conf e => exact hb
    | fork f => exact hb

/-- C8 counterexample: the configuration state `ffi = true` together with
`cheatcodes = false` is not reachable by any sequence of the provided
builder operations starting from `ExecutorBuilder::new()` — the claim's
existential is false. -/
theorem ffi_without_cheatcodes_unreachable :
    ¬ ∃ ops : List Op,
      (runOps ops ExecutorBuilder.new).ffi = true ∧
      (runOps ops ExecutorBuilder.new).cheatcodes = false := by
  rintro ⟨ops, hffi, hcheat⟩
  have := runOps_ffi_imp_cheatcodes ops ExecutorBuilder.new
    (by intro h; cases h) hffi
  rw [this] at hcheat
  cases hcheat

/-- C8 amended: the state `ffi = true` with `cheatcodes = false` is NOT
representable through the builder interface: every configuration reached
from `ExecutorBuilder::new()` by a sequence of the provided operations
satisfies `ffi = true → cheatcodes = true`, because `with_cheatcodes` is
the only operation that writes `ffi` and it unconditionally sets
`cheatcodes` to `true`. -/
theorem reachable_ffi_implies_cheatcodes (ops : List Op)
    (h : (runOps ops ExecutorBuilder.new).ffi = true) :
    (runOps ops ExecutorBuilder.new).cheatcodes = true :=
  runOps_ffi_imp_cheatcodes ops ExecutorBuilder.new (by intro hc; cases hc) h

/-- C8 amended witness: after `new().with_cheatcodes(true)` the FFI flag is
on, and the theorem yields that cheatcodes are on as well. -/
theorem reachable_ffi_implies_cheatcodes_witness :
    (runOps [Op.cheat true] ExecutorBuilder.new).ffi = true ∧
    (runOps [Op.cheat true] ExecutorBuilder.new).cheatcodes = true :=
  ⟨rfl, reachable_ffi_implies_cheatcodes [Op.cheat true] rfl⟩

/-- C9: a backend's variant is fixed at construction and never changes.
Every query method takes the backend by shared reference (`&self`), so in
state-passing form each query returns the very backend it received: the
post-state equals the pre-state, and in particular the variant tag is
preserved — no query switches between `Simple` (Local) and `Forked`, and
exactly one variant is active throughout. -/
theorem backend_variant_immutable :
    ∀ (b : Backend) (q : Query),
      (b.queryStep q).2 = b ∧
      (b.queryStep q).2.isForked = b.isForked := by
  intro b q
  cases q <;> exact ⟨rfl, rfl⟩

/-- Helper: a single builder operation preserves `cheatcodes = true` and
preserves the presence of a fork descriptor. -/
theorem op_apply_monotone (o : Op) (b : ExecutorBuilder) :
    (b.cheatcodes = true → (o.apply b).cheatcodes = true) ∧
    (b.fork.isSome = true → (o.apply b).fork.isSome = true) := by
  cases o with
  | cheat ffi => exact ⟨fun _ => rfl, fun h => h⟩
  | spec s => exact ⟨fun h => h, fun h => h⟩
  | conf e => exact ⟨fun h => h, fun h => h⟩
  | fork f => exact ⟨fun h => h, fun _ => rfl⟩

/-- C10: builder settings are monotone.  Once `cheatcodes` is `true` no
operation — and hence no sequence of operations — makes it `false` again,
and once a fork descriptor is present no operation returns the `fork`
field to `None`. -/
theorem builder_settings_monotone (ops : List Op) (b : ExecutorBuilder) :
    (b.cheatcodes = true → (runOps ops b).cheatcodes = true) ∧
    (b.fork.isSome = true → (runOps ops b).fork.isSome = true) := by
  induction ops generalizing b with
  | nil => exact ⟨fun h => h, fun h => h⟩
  | cons o rest ih =>
    refine ⟨fun h => ?_, fun h => ?_⟩
    · exact (ih (o.apply b)).1 ((op_apply_monotone o b).1 h)
    · exact (ih (o.apply b)).2 ((op_apply_monotone o b).2 h)

/-- C10 witness: from a builder with cheatcodes enabled and a fork
attached, a further sequence of spec-, config- and cheatcode-setting
operations leaves cheatcodes enabled and the fork present. -/
theorem builder_settings_monotone_witness :
    (runOps [Op.spec 1, Op.conf default, Op.cheat false]
      (ExecutorBuilder.new.with_cheatcodes true |>.with_fork
        { url := "http://localhost:8545", pin_block := some 100 })).cheatcodes = true ∧
    (runOps [Op.spec 1, Op.conf default, Op.cheat false]
      (ExecutorBuilder.new.with_cheatcodes true |>.with_fork
        { url := "http://localhost:8545", pin_block := some 100 })).fork.isSome = true := by
  refine ⟨?_, ?_⟩
  · exact (builder_settings_monotone [Op.spec 1, Op.conf default, Op.cheat false]
      (ExecutorBuilder.new.with_cheatcodes true |>.with_fork
        { url := "http://localhost:8545", pin_block := some 100 })).1 rfl
  · exact (builder_settings_monotone [Op.spec 1, Op.conf default, Op.cheat false]
      (ExecutorBuilder.new.with_cheatcodes true |>.with_fork
        { url := "http://localhost:8545", pin_block := some 100 })).2 rfl
